import Mathlib

/-!
Shallow embedding of the core logic of the `itl` PDF-reader backend
(`server/pdf_utils.py`, `server/ai_service.py`, `server/repository.py`),
with theorems checking the specification's claims against it.

Python integers are modelled as `Int` (arbitrary precision, so no overflow
concerns), Python `date` values as explicit year/month/day records, the
SQLAlchemy usage table as a list of rows with explicit state passing, and
the streaming generator as a function from the upstream outcome to the
list of yielded chunks.
-/

namespace ITL

/-! ### Credential cache (`ai_service.py`, `TokenInfo`) -/

/-- Cached GigaChat token data (`TokenInfo` dataclass). -/
structure TokenInfo where
  access_token : String
  expires_at : Int
  created_at : Int
deriving Repr, DecidableEq

/-- Embeds `TokenInfo.is_expired`: `current_time >= (self.expires_at - 300)`.
The wall clock read `int(time.time())` is passed in as `current_time`. -/
def TokenInfo.is_expired (t : TokenInfo) (current_time : Int) : Bool :=
  decide (current_time ≥ t.expires_at - 300)

/-! ### Quota checks (`repository.py`) -/

/-- Embeds `check_questions_limit`.  The repository function first loads the
usage row joined with the plan limits (`get_user_usage`); that lookup is
modelled by the `Option` argument carrying
`(questions_count, max_questions_per_month)` when present. -/
def check_questions_limit (usage : Option (Int × Int)) : Bool × Option String :=
  match usage with
  | none => (false, some "Unable to determine usage limits")
  | some (questions_count, max_questions) =>
    if questions_count ≥ max_questions then
      (false, some ("Question limit exceeded. Maximum: " ++ toString max_questions
        ++ " questions per month"))
    else
      (true, none)

/-- Counters of one usage-period row, as touched by `increment_user_usage`. -/
structure UsageCounters where
  storage_bytes_used : Int
  files_count : Int
  tokens_used : Int
  questions_count : Int
deriving Repr, DecidableEq

/-- Embeds the counter-update section of `increment_user_usage` (each delta is
added only when strictly positive). -/
def increment_user_usage (u : UsageCounters)
    (storage_bytes files tokens questions : Int) : UsageCounters :=
  let u1 := if storage_bytes > 0 then
    { u with storage_bytes_used := u.storage_bytes_used + storage_bytes } else u
  let u2 := if files > 0 then
    { u1 with files_count := u1.files_count + files } else u1
  let u3 := if tokens > 0 then
    { u2 with tokens_used := u2.tokens_used + tokens } else u2
  if questions > 0 then
    { u3 with questions_count := u3.questions_count + questions } else u3

/-! ### Billing periods (`repository.py`, `calculate_period_dates`) -/

/-- A Python `datetime.date` value (year, month 1..12, day 1..31). -/
structure PyDate where
  year : Nat
  month : Nat
  day : Nat
deriving Repr, DecidableEq, BEq

/-- Gregorian leap-year test, exactly the inline expression used in
`calculate_period_dates`: `y % 4 == 0 and (y % 100 != 0 or y % 400 == 0)`. -/
def isLeap (y : Nat) : Bool :=
  y % 4 == 0 && (y % 100 != 0 || y % 400 == 0)

/-- Number of days of a month, as `datetime.date` validates it. -/
def daysInMonth (y m : Nat) : Nat :=
  if m = 2 then (if isLeap y then 29 else 28)
  else if m = 4 ∨ m = 6 ∨ m = 9 ∨ m = 11 then 30
  else 31

/-- Embeds `date - timedelta(days=1)` on a valid date. -/
def prevDay (d : PyDate) : PyDate :=
  if d.day > 1 then ⟨d.year, d.month, d.day - 1⟩
  else if d.month > 1 then ⟨d.year, d.month - 1, daysInMonth d.year (d.month - 1)⟩
  else ⟨d.year - 1, 12, 31⟩

/-- Embeds `date + timedelta(days=1)` on a valid date. -/
def nextDay (d : PyDate) : PyDate :=
  if d.day < daysInMonth d.year d.month then ⟨d.year, d.month, d.day + 1⟩
  else if d.month < 12 then ⟨d.year, d.month + 1, 1⟩
  else ⟨d.year + 1, 1, 1⟩

/-- Date comparison `a <= b` of `datetime.date`. -/
def dateLE (a b : PyDate) : Bool :=
  a.year < b.year ||
    (a.year == b.year && (a.month < b.month || (a.month == b.month && a.day ≤ b.day)))

/-- Embeds `calculate_period_dates`.  The `try: date(...) except ValueError`
pattern is modelled by checking the day against the target month's length
(`date(y, m, d)` raises exactly when `d` exceeds it, for `1 ≤ d ≤ 31`). -/
def calculate_period_dates (period_start : PyDate) : PyDate × PyDate :=
  let period_end :=
    if period_start.month = 12 then
      if period_start.day ≤ daysInMonth (period_start.year + 1) 1 then
        prevDay ⟨period_start.year + 1, 1, period_start.day⟩
      else ⟨period_start.year, 12, 31⟩
    else
      if period_start.day ≤ daysInMonth period_start.year (period_start.month + 1) then
        prevDay ⟨period_start.year, period_start.month + 1, period_start.day⟩
      else if period_start.month + 1 = 2 then
        if isLeap period_start.year then prevDay ⟨period_start.year, 2, 29⟩
        else prevDay ⟨period_start.year, 2, 28⟩
      else if period_start.month + 1 = 4 ∨ period_start.month + 1 = 6 ∨
          period_start.month + 1 = 9 ∨ period_start.month + 1 = 11 then
        prevDay ⟨period_start.year, period_start.month + 1, 30⟩
      else
        prevDay ⟨period_start.year, period_start.month + 1, 31⟩
  (period_start, period_end)

/-! ### PDF outline extraction (`pdf_utils.py`, `extract_pdf_outline`) -/

/-- One structure item built by `extract_pdf_outline`.  The random
`uuid.uuid4()` identifiers are modelled by the item's position in the outline
(`orderIndex`), which is equally unique within one extraction. -/
structure OutlineItem where
  title : String
  level : Int
  pageFrom : Int
  pageTo : Option Int
  parentId : Option Nat
  orderIndex : Nat
deriving Repr, DecidableEq

/-- Scan of `reversed(parent_stack)` for the last pushed entry with a strictly
smaller level; the stack is kept most-recent-first here. -/
def findParent (stack : List (Nat × Int)) (level : Int) : Option Nat :=
  match stack with
  | [] => none
  | (pid, plevel) :: rest =>
    if plevel < level then some pid else findParent rest level

/-- First pass of `extract_pdf_outline` over the flat `(level, title, page)`
triples: builds each item with `pageFrom = page + 1`, the provisional
`pageTo` (document end for the final item; for a following entry of
same-or-shallower level, document end when the item is second to last and
`next_page + 1` otherwise; `None` when the next entry is deeper), the
parent link, and maintains the parent stack (entries of level ≥ current are
dropped before pushing).  `i` is the running index, `rest` being empty or a
singleton mirrors `i == len(outline) - 1` / `i == len(outline) - 2`. -/
def outlinePass1 (page_count : Int) :
    List (Int × String × Int) → Nat → List (Nat × Int) → List OutlineItem
  | [], _, _ => []
  | (level, title, page) :: rest, i, stack =>
    let parent_id := findParent stack level
    let pageTo : Option Int :=
      match rest with
      | [] => some page_count
      | (next_level, _, next_page) :: rest2 =>
        if next_level ≤ level then
          if rest2 = [] then some page_count else some (next_page + 1)
        else none
    let item : OutlineItem :=
      ⟨title.trim, level, page + 1, pageTo, parent_id, i⟩
    item :: outlinePass1 page_count rest (i + 1)
      ((i, level) :: stack.filter (fun p => p.2 < level))

/-- Second pass of `extract_pdf_outline` (`# Fix page_to for nested items`):
each item whose `pageTo` is still `None` takes `pageFrom - 1` of the first
later item at the same or shallower level, or the document's page count when
none exists.  The Python loop mutates in place, but only `pageTo` fields are
written and only `level`/`pageFrom` fields of later items are read, so the
order-independent map is faithful. -/
def outlineResolvePageTo (items : List OutlineItem) (page_count : Int) :
    List OutlineItem :=
  items.enum.map fun (i, item) =>
    match item.pageTo with
    | some _ => item
    | none =>
      match (items.drop (i + 1)).find? (fun it => it.level ≤ item.level) with
      | some nxt => { item with pageTo := some (nxt.pageFrom - 1) }
      | none => { item with pageTo := some page_count }

/-- Embeds the pure core of `extract_pdf_outline`: from the flat
`doc.get_toc()` result (list of `(level, title, page)` triples) and
`doc.page_count` to the resolved structure items.  The surrounding download /
parse / failure handling returns `[]`, like the empty-outline case. -/
def extract_pdf_outline (outline : List (Int × String × Int)) (page_count : Int) :
    List OutlineItem :=
  match outline with
  | [] => []
  | _ => outlineResolvePageTo (outlinePass1 page_count outline 0 []) page_count

/-! ### Context builder (`ai_service.py`, `AIService.build_context_pages`) -/

/-- The `chapter_info` dict as accessed by `AIService` (`.get("pageFrom")`,
`.get("pageTo")`, `.get("title")`); a missing key is a `none` field. -/
structure ChapterInfo where
  title : Option String
  pageFrom : Option Int
  pageTo : Option Int
deriving Repr, DecidableEq

/-- Python truthiness of the `chapter_info` dict: `None` and the empty dict
are falsy, a dict with at least one of its keys present is truthy. -/
def ChapterInfo.truthy (ci : ChapterInfo) : Bool :=
  ci.title.isSome || ci.pageFrom.isSome || ci.pageTo.isSome

/-- Condition `context_type in ["chapter", "section"] and chapter_info`. -/
def chapterScope (context_type : String) (chapter_info : Option ChapterInfo) : Bool :=
  (context_type == "chapter" || context_type == "section") &&
    (match chapter_info with
     | some ci => ci.truthy
     | none => false)

/-- Embeds `AIService.build_context_pages`: a `set()` of pages is assembled
(all of `range(1, min(total_pages, 1) + 1)` for `"document"` scope with its
`max_pages = 1` cap; the clamped chapter range for a truthy `chapter_info`
under `"chapter"`/`"section"`; just `current_page` otherwise) and returned
as `sorted(list(pages))`. -/
def contextPagesSet (current_page total_pages : Int) (context_type : String)
    (chapter_info : Option ChapterInfo) : Finset Int :=
  if context_type = "document" then
    Finset.Icc 1 (min total_pages 1)
  else if chapterScope context_type chapter_info then
    let ci := chapter_info.getD ⟨none, none, none⟩
    let page_from := ci.pageFrom.getD current_page
    let page_to := ci.pageTo.getD current_page
    (Finset.Icc page_from (min (page_to + 1) (total_pages + 1) - 1)).filter
      (fun p => 1 ≤ p)
  else
    {current_page}

/-- The final `sorted(list(pages))`. -/
def build_context_pages (current_page total_pages : Int) (context_type : String)
    (chapter_info : Option ChapterInfo) : List Int :=
  (contextPagesSet current_page total_pages context_type chapter_info).sort (· ≤ ·)

/-- Configured context-window radius `self.context_pages`, i.e.
`int(os.getenv("CHAT_CONTEXT_PAGES", "1"))` at its default. -/
def context_pages_config : Int := 1

/-- Characterisation of when `build_context_pages` comes back empty: the
`"document"` scope with a page count below 1, or a truthy chapter scope whose
clamped range `[max(pageFrom, 1), min(pageTo, totalPages)]` is empty.  The
default scope always contributes `current_page`. -/
def contextPagesEmpty (current_page total_pages : Int) (context_type : String)
    (chapter_info : Option ChapterInfo) : Prop :=
  (context_type = "document" ∧ total_pages < 1) ∨
  (context_type ≠ "document" ∧ chapterScope context_type chapter_info = true ∧
    min ((chapter_info.getD ⟨none, none, none⟩).pageTo.getD current_page) total_pages
      < max ((chapter_info.getD ⟨none, none, none⟩).pageFrom.getD current_page) 1)

/-- The default-scope behaviour the spec claims for `build_context_pages`:
`current_page` plus the configured radius of pages before and after it,
clamped to `[1, total_pages]`.  Stated only to be compared against the
implementation. -/
def claimed_default_context_pages (radius current_page total_pages : Int) : List Int :=
  (List.range (min total_pages (current_page + radius) + 1
      - max 1 (current_page - radius)).toNat).map
    (fun k => max 1 (current_page - radius) + k)

/-! ### Streaming response generator (`ai_service.py`,
`AIService.generate_response_stream`) -/

/-- Auxiliary: the first list is a character-wise prefix of the second. -/
def charsPrefixOf : List Char → List Char → Bool
  | [], _ => true
  | _ :: _, [] => false
  | c :: cs, d :: ds => c == d && charsPrefixOf cs ds

/-- Auxiliary: the pattern occurs as a contiguous run of the haystack. -/
def charsContains (pat : List Char) : List Char → Bool
  | [] => charsPrefixOf pat []
  | d :: rest => charsPrefixOf pat (d :: rest) || charsContains pat rest

/-- Python's substring test `pat in s`. -/
def strContains (s pat : String) : Bool :=
  charsContains pat.toList s.toList

/-- ASCII lowering of one character, as `str.lower()` acts on the ASCII
letters (the only characters relevant to the matched patterns). -/
def charLower (c : Char) : Char :=
  if 'A' ≤ c ∧ c ≤ 'Z' then Char.ofNat (c.toNat + 32) else c

/-- Python's `str.lower()` (restricted to its ASCII behaviour). -/
def strLower (s : String) : String :=
  String.mk (s.toList.map charLower)

/-- Message of the 402 / insufficient-balance branch for DeepSeek. -/
def streamMsgBalanceDeepseek : String :=
  "❌ **API Error**: Insufficient balance on your DeepSeek account. Please:\n\n1. Check your DeepSeek account balance at https://platform.deepseek.com\n2. Add credits to your account\n3. Verify your API key is correct\n\nIf you need a new API key, get one from https://platform.deepseek.com/api_keys"

/-- Message of the 402 / insufficient-balance branch for GigaChat. -/
def streamMsgBalanceGigachat : String :=
  "❌ **API Error**: Insufficient balance on your GigaChat account. Please:\n\n1. Check your GigaChat account balance at https://developers.sber.ru\n2. Add credits to your account\n3. Verify your API key is correct"

/-- Message of the 401 / unauthorized branch for DeepSeek. -/
def streamMsgAuthDeepseek : String :=
  "❌ **API Error**: Invalid DeepSeek API key. Please check your `DEEPSEEK_API_KEY` in the server configuration."

/-- Message of the 401 / unauthorized branch for GigaChat. -/
def streamMsgAuthGigachat : String :=
  "❌ **API Error**: Invalid GigaChat authorization key. Please check your `GIGACHAT_AUTH_KEY` in the server configuration."

/-- Message of the 429 / rate-limit branch. -/
def streamMsgRateLimit : String :=
  "❌ **API Error**: Rate limit exceeded. Please wait a moment and try again."

/-- Message of the connection-failure branch for GigaChat. -/
def streamMsgConnGigachat : String :=
  "❌ **Connection Error**: Unable to connect to GigaChat API. This might be due to:\n\n1. Network connectivity issues\n2. GigaChat API server maintenance\n3. Firewall or proxy restrictions\n\nPlease try again in a few moments."

/-- Embeds the `except Exception as e` handler of
`generate_response_stream` (identical in
`generate_response_stream_no_context`): the substring-matching cascade over
`str(e)` selecting the human-readable in-band message that is yielded. -/
def classify_stream_error (provider e : String) : String :=
  if strContains e "Insufficient Balance" || strContains e "402" then
    if provider == "deepseek" then streamMsgBalanceDeepseek else streamMsgBalanceGigachat
  else if strContains e "401" || strContains e "Unauthorized" then
    if provider == "deepseek" then streamMsgAuthDeepseek else streamMsgAuthGigachat
  else if strContains e "429" || strContains (strLower e) "rate limit" then
    streamMsgRateLimit
  else if strContains e "Connection error" || strContains (strLower e) "connection" then
    if provider == "gigachat" then streamMsgConnGigachat
    else "❌ **Connection Error**: " ++ e
  else
    "❌ **Error**: " ++ e

/-- Embeds the control flow of `generate_response_stream` as seen by the
consumer of the generator: the upstream interaction is abstracted by the
content chunks relayed before a possible failure (`upstream_chunks`) and the
failure's `str(e)` when one is raised (`failure`).  The whole body runs
inside `try: ... except Exception as e:`, so a failure — whether raised
before or during streaming — appends exactly one classified in-band chunk
and the generator then terminates normally (the function is total); the
trailing `usage` item of the success path is not modelled here. -/
def generate_response_stream (provider : String) (upstream_chunks : List String)
    (failure : Option String) : List String :=
  match failure with
  | none => upstream_chunks
  | some e => upstream_chunks ++ [classify_stream_error provider e]

/-! ### Usage period creation (`repository.py`, `get_or_create_user_usage`) -/

/-- One `user_usage` row.  The random UUID primary key is modelled as a `Nat`
supplied by the caller; users and plans are likewise identifier `Nat`s. -/
structure UsageRow where
  id : Nat
  user_id : Nat
  plan_id : Nat
  period_start : PyDate
  period_end : PyDate
  storage_bytes_used : Int
  files_count : Int
  tokens_used : Int
  questions_count : Int
deriving Repr, DecidableEq

/-- The filter `user_id == user AND period_start == ps` — the columns of the
table's uniqueness constraint. -/
def usageKey (user : Nat) (ps : PyDate) (r : UsageRow) : Bool :=
  decide (r.user_id = user ∧ r.period_start = ps)

/-- The query `...filter(user_id).filter(period_start).first()`. -/
def findUsage (db : List UsageRow) (user : Nat) (ps : PyDate) : Option UsageRow :=
  db.find? (usageKey user ps)

/-- Number of rows of the table holding a given `(user, period_start)` key. -/
def usageCount (db : List UsageRow) (user : Nat) (ps : PyDate) : Nat :=
  (db.filter (usageKey user ps)).length

/-- Commit of the in-place mutation `usage.plan_id = plan_uuid` on the row
found under a `(user, period_start)` key: under the table's uniqueness
constraint exactly one row carries the key, and that row is rewritten. -/
def updateUsage (db : List UsageRow) (user : Nat) (ps : PyDate) (new : UsageRow) :
    List UsageRow :=
  db.map fun r => if usageKey user ps r then new else r

/-- Embeds the `while True` period search of `get_or_create_user_usage`:
starting from the plan's start date, advance period by period
(`period_start = period_end + timedelta(days=1)`) until today is inside.
The source loop is unbounded; `fuel` bounds the iterations, `none` meaning
the bound was hit. -/
def find_current_period : Nat → PyDate → PyDate → Option PyDate
  | 0, _, _ => none
  | fuel + 1, period_start, today =>
    if dateLE today (calculate_period_dates period_start).2 then some period_start
    else find_current_period fuel (nextDay (calculate_period_dates period_start).2) today

/-- Embeds `get_or_create_user_usage` with explicit database state.  `race`
models a competing writer: a row it committed between this call's lookup and
this call's `db.commit()`.  The commit raises a uniqueness violation exactly
when that competing row carries the same `(user, period_start)` key, in
which case the code rolls the insert back, re-reads the now-existing row,
updates its plan reference if it differs, and returns it; `none` models the
re-raised exception of the final `raise` (and the unbounded period loop
running out of fuel). -/
def get_or_create_user_usage (db : List UsageRow) (user plan new_id : Nat)
    (plan_start today : PyDate) (fuel : Nat) (race : Option UsageRow) :
    Option (UsageRow × List UsageRow) :=
  match find_current_period fuel plan_start today with
  | none => none
  | some period_start =>
    match findUsage db user period_start with
    | some usage =>
      if usage.plan_id ≠ plan then
        let updated := { usage with plan_id := plan }
        some (updated, updateUsage db user period_start updated)
      else
        some (usage, db)
    | none =>
      let usage : UsageRow :=
        ⟨new_id, user, plan, period_start, (calculate_period_dates period_start).2,
          0, 0, 0, 0⟩
      let db_commit := db ++ race.toList
      match findUsage race.toList user period_start with
      | none => some (usage, db_commit ++ [usage])
      | some _ =>
        match findUsage db_commit user period_start with
        | some existing =>
          if existing.plan_id ≠ plan then
            let updated := { existing with plan_id := plan }
            some (updated, updateUsage db_commit user period_start updated)
          else
            some (existing, db_commit)
        | none => none

/-- What claim C3 asserts of `get_or_create_user_usage`, for a database `db`,
a computed current period `ps`, and a competing writer's row `r`: the call
succeeds; calling twice in immediate succession (no competitor) returns the
same row twice, leaves the state of the first call untouched and exactly one
row under the `(user, ps)` key; and a loser of the uniqueness race discards
its insert and returns the competitor's row instead of erroring, again with
exactly one row under the key. -/
def GetOrCreateSpec (db : List UsageRow) (user plan id1 id2 : Nat)
    (plan_start today : PyDate) (fuel : Nat) (ps : PyDate) (r : UsageRow) : Prop :=
  (get_or_create_user_usage db user plan id1 plan_start today fuel none).isSome ∧
  (∀ u1 db1,
    get_or_create_user_usage db user plan id1 plan_start today fuel none
      = some (u1, db1) →
    get_or_create_user_usage db1 user plan id2 plan_start today fuel none
        = some (u1, db1) ∧
      usageCount db1 user ps = 1 ∧ u1.user_id = user ∧ u1.period_start = ps) ∧
  (r.user_id = user → r.period_start = ps → findUsage db user ps = none →
    ∃ u2 db2,
      get_or_create_user_usage db user plan id1 plan_start today fuel (some r)
          = some (u2, db2) ∧
        u2.id = r.id ∧ u2.plan_id = plan ∧ usageCount db2 user ps = 1)

/-- A key lookup misses exactly when the table holds no row under the key. -/
theorem findUsage_eq_none_iff_count {db : List UsageRow} {user : Nat} {ps : PyDate} :
    findUsage db user ps = none ↔ usageCount db user ps = 0 := by
  simp [findUsage, usageCount, List.find?_eq_none, List.length_eq_zero,
    List.filter_eq_nil_iff]

/-- Row counts add over concatenated table fragments. -/
theorem usageCount_append (l1 l2 : List UsageRow) (user : Nat) (ps : PyDate) :
    usageCount (l1 ++ l2) user ps = usageCount l1 user ps + usageCount l2 user ps := by
  simp [usageCount, List.filter_append]

/-- A row found under a key carries the key's columns. -/
theorem findUsage_key {db : List UsageRow} {user : Nat} {ps : PyDate} {u : UsageRow}
    (h : findUsage db user ps = some u) : u.user_id = user ∧ u.period_start = ps := by
  have hkey := List.find?_some h
  simpa [usageKey] using hkey

/-- A hit under a key means at least one row holds the key. -/
theorem usageCount_pos_of_find {db : List UsageRow} {user : Nat} {ps : PyDate}
    {u : UsageRow} (h : findUsage db user ps = some u) :
    1 ≤ usageCount db user ps := by
  have hmem := List.mem_of_find?_eq_some h
  have hkey := List.find?_some h
  have hf : u ∈ db.filter (usageKey user ps) := List.mem_filter.mpr ⟨hmem, hkey⟩
  exact List.length_pos.mpr (List.ne_nil_of_mem hf)

/-- After rewriting the row under a key (with a replacement that still
carries the key), looking the key up returns the replacement, provided the
key was present. -/
theorem findUsage_update_of_found {db : List UsageRow} {user : Nat} {ps : PyDate}
    {u new : UsageRow} (hnew : usageKey user ps new = true)
    (h : findUsage db user ps = some u) :
    findUsage (updateUsage db user ps new) user ps = some new := by
  induction db with
  | nil => simp [findUsage] at h
  | cons r rest ih =>
    by_cases hr : usageKey user ps r = true
    · simp [findUsage, updateUsage, hr, hnew]
    · have h' : findUsage rest user ps = some u := by
        simpa [findUsage, List.find?_cons_of_neg, hr] using h
      have := ih h'
      simpa [findUsage, updateUsage, hr] using this

/-- Rewriting the row under a key with a replacement that still carries the
key leaves the number of rows under the key unchanged. -/
theorem usageCount_update (db : List UsageRow) (user : Nat) (ps : PyDate)
    (new : UsageRow) (hnew : usageKey user ps new = true) :
    usageCount (updateUsage db user ps new) user ps = usageCount db user ps := by
  induction db with
  | nil => rfl
  | cons r rest ih =>
    by_cases hr : usageKey user ps r = true <;>
      simp [usageCount, updateUsage, List.filter_cons, hr, hnew] at ih ⊢ <;>
      omega

end ITL

/-- Claim C2 (code bug): for a plan activated on the 31st of a 31-day month the
spec requires the first period to end on the LAST day of the following month
when that month is shorter.  The code's clamping fallback subtracts one more
day: anchor 2023-01-31 yields period end 2023-02-27 (February 2023 has 28
days), and anchor 2024-01-31 yields 2024-02-28 (February 2024 has 29 days) —
one day short of the month's last day in both cases, contradicting the code's
own comment `Use last day of the next month`. -/
theorem C2_period_end_cut_short :
    ((ITL.calculate_period_dates ⟨2023, 1, 31⟩).2 = ⟨2023, 2, 27⟩) ∧
    (ITL.daysInMonth 2023 2 = 28) ∧
    ((⟨2023, 2, 27⟩ : ITL.PyDate) ≠ ⟨2023, 2, 28⟩) ∧
    ((ITL.calculate_period_dates ⟨2024, 1, 31⟩).2 = ⟨2024, 2, 28⟩) ∧
    (ITL.daysInMonth 2024 2 = 29) ∧
    ((⟨2024, 2, 28⟩ : ITL.PyDate) ≠ ⟨2024, 2, 29⟩) := by
  decide

/-- Claim C1 (code bug): on the spec's example outline (levels 1, 2, 1 with
0-based raw pages 0, 1, 4, so that `pageFrom` resolves to 1, 2, 5 as the claim
expects) over a 10-page document, the extractor leaves `A.1.pageTo = 10`
instead of the claimed `4`: in the first pass a second-to-last entry followed
by a same-or-shallower entry is assigned the document's page count, and the
second pass no longer touches it.  The claimed resolution would be
`[4, 4, 10]`. -/
theorem C1_outline_pageTo_eval :
    ((ITL.extract_pdf_outline [(1, "A", 0), (2, "A.1", 1), (1, "B", 4)] 10).map
      (fun it => (it.pageFrom, it.pageTo)))
      = [(1, some 4), (2, some 10), (5, some 10)] ∧
    ([((1 : Int), some (4 : Int)), (2, some 10), (5, some 10)] ≠
      [(1, some 4), (2, some 4), (5, some 10)]) := by
  exact ⟨by decide, by decide⟩

/-- Claim C4 (code bug): `page_from ≤ page_to` does not hold for every input:
for the outline `[(1, "A", 3), (2, "A.1", 3), (1, "B", 3)]` (three entries on
the same raw page) over a 10-page document, the second pass sets entry A's
`pageTo` to `B.pageFrom - 1 = 3` while `A.pageFrom = 4`, because the code
omits the flooring `max(pageFrom[i], pageFrom[j] - 1)` the spec requires. -/
theorem C4_page_range_violated :
    ((ITL.extract_pdf_outline [(1, "A", 3), (2, "A.1", 3), (1, "B", 3)] 10).map
      (fun it => (it.pageFrom, it.pageTo)))
      = [(4, some 3), (4, some 10), (4, some 10)] ∧
    ¬ ((4 : Int) ≤ 3) := by
  exact ⟨by decide, by decide⟩

/-- Claim C5, counterexample: the claim says the result is empty whenever
`totalPages < 1`, but the default scope unconditionally adds `current_page`:
with `current_page = 1`, `total_pages = 0` the builder returns `[1]`. -/
theorem C5_counterexample_total_pages_zero :
    ITL.build_context_pages 1 0 "page" none = [1] ∧ (0 : Int) < 1 ∧
      ([1] : List Int) ≠ [] := by
  refine ⟨?_, by norm_num, by simp⟩
  simp [ITL.build_context_pages, ITL.contextPagesSet, ITL.chapterScope]

/-- Claim C5, amended: for every input `build_context_pages` returns a
deduplicated strictly ascending sequence, and the result is empty exactly
when the selected branch contributes no page: under `"document"` scope when
`total_pages < 1`, and under a truthy chapter scope when the clamped range
`[max(pageFrom, 1), min(pageTo, totalPages)]` is empty; the default scope
(in particular every `"page"` request) never returns an empty list. -/
theorem C5_sorted_and_empty_characterised (cur tot : Int) (ctype : String)
    (cinfo : Option ITL.ChapterInfo) :
    (ITL.build_context_pages cur tot ctype cinfo).Sorted (· < ·) ∧
    (ITL.build_context_pages cur tot ctype cinfo = [] ↔
      ITL.contextPagesEmpty cur tot ctype cinfo) := by
  constructor
  · exact Finset.sort_sorted_lt _
  · rw [ITL.build_context_pages, ← List.length_eq_zero, Finset.length_sort,
      Finset.card_eq_zero]
    rw [ITL.contextPagesSet]
    split_ifs with h1 h2
    · rw [Finset.Icc_eq_empty_iff]
      simp only [ITL.contextPagesEmpty]
      constructor
      · intro h
        exact Or.inl ⟨h1, by omega⟩
      · rintro (⟨-, h⟩ | ⟨hne, -⟩)
        · omega
        · exact absurd h1 hne
    · have hIcc :
          (Finset.Icc ((cinfo.getD ⟨none, none, none⟩).pageFrom.getD cur)
              (min (((cinfo.getD ⟨none, none, none⟩).pageTo.getD cur) + 1) (tot + 1) - 1)).filter
              (fun p => 1 ≤ p)
            = Finset.Icc (max ((cinfo.getD ⟨none, none, none⟩).pageFrom.getD cur) 1)
              (min ((cinfo.getD ⟨none, none, none⟩).pageTo.getD cur) tot) := by
        ext p
        simp only [Finset.mem_filter, Finset.mem_Icc]
        omega
      rw [hIcc, Finset.Icc_eq_empty_iff]
      simp only [ITL.contextPagesEmpty]
      constructor
      · intro h
        exact Or.inr ⟨h1, h2, by omega⟩
      · rintro (⟨h, -⟩ | ⟨-, -, h⟩)
        · exact absurd h h1
        · omega
    · simp only [ITL.contextPagesEmpty]
      constructor
      · intro h
        exact absurd h (Finset.singleton_ne_empty cur)
      · rintro (⟨h, -⟩ | ⟨-, h, -⟩)
        · exact absurd h h1
        · exact absurd h h2

/-- Claim C6 (code bug): the default `"page"` scope ignores the configured
context-window radius `self.context_pages` (default `CHAT_CONTEXT_PAGES = 1`)
and returns only the current page: for `current_page = 5`, `total_pages = 10`
the code yields `[5]`, while the claimed behaviour at the configured default
radius is `[4, 5, 6]`. -/
theorem C6_context_radius_ignored :
    ITL.build_context_pages 5 10 "page" none = [5] ∧
    ITL.context_pages_config = 1 ∧
    ITL.claimed_default_context_pages ITL.context_pages_config 5 10 = [4, 5, 6] ∧
    ([5] : List Int) ≠ [4, 5, 6] := by
  refine ⟨?_, rfl, by decide, by simp⟩
  simp [ITL.build_context_pages, ITL.contextPagesSet, ITL.chapterScope]

set_option maxRecDepth 4000 in
/-- Claim C7: every upstream failure raised while generating a streaming
response is absorbed by the generator's handler: the yielded sequence is the
already-relayed chunks followed by exactly one final in-band error chunk,
which is always one of the fixed provider-distinguishing messages of the
failure taxonomy (402/insufficient balance, 401/unauthorized, 429/rate
limit, connection failure, generic fallback); representative inputs hit each
branch. -/
theorem C7_stream_failures_in_band (provider : String) (chunks : List String) (e : String) :
    (ITL.generate_response_stream provider chunks (some e)
      = chunks ++ [ITL.classify_stream_error provider e]) ∧
    (ITL.classify_stream_error provider e ∈
      [ITL.streamMsgBalanceDeepseek, ITL.streamMsgBalanceGigachat,
        ITL.streamMsgAuthDeepseek, ITL.streamMsgAuthGigachat,
        ITL.streamMsgRateLimit, ITL.streamMsgConnGigachat,
        "❌ **Connection Error**: " ++ e, "❌ **Error**: " ++ e]) ∧
    (ITL.classify_stream_error "deepseek" "Error code: 402 - Insufficient Balance"
      = ITL.streamMsgBalanceDeepseek) ∧
    (ITL.classify_stream_error "gigachat" "Error code: 402"
      = ITL.streamMsgBalanceGigachat) ∧
    (ITL.classify_stream_error "deepseek" "401 Unauthorized"
      = ITL.streamMsgAuthDeepseek) ∧
    (ITL.classify_stream_error "gigachat" "401 Unauthorized"
      = ITL.streamMsgAuthGigachat) ∧
    (ITL.classify_stream_error "deepseek" "HTTP 429" = ITL.streamMsgRateLimit) ∧
    (ITL.classify_stream_error "gigachat" "Connection error."
      = ITL.streamMsgConnGigachat) ∧
    (ITL.classify_stream_error "deepseek" "Connection error."
      = "❌ **Connection Error**: " ++ "Connection error.") ∧
    (ITL.classify_stream_error "deepseek" "something odd happened"
      = "❌ **Error**: " ++ "something odd happened") := by
  refine ⟨rfl, ?_, by decide, by decide, by decide, by decide, by decide, by decide,
    by decide, by decide⟩
  unfold ITL.classify_stream_error
  split_ifs <;> simp

/-- Claim C3: for every database state respecting the uniqueness constraint
and every computed current period, `get_or_create_user_usage` succeeds;
calling it twice in immediate succession returns the same row both times and
leaves exactly one row for the `(user, period_start)` pair; and when an
insert loses the uniqueness race against a concurrent writer's row, the
loser discards its insert and returns that existing row instead of
erroring. -/
theorem C3_get_or_create_idempotent_and_race (db : List ITL.UsageRow)
    (user plan id1 id2 : Nat) (plan_start today ps : ITL.PyDate) (fuel : Nat)
    (r : ITL.UsageRow)
    (hps : ITL.find_current_period fuel plan_start today = some ps)
    (hinv : ITL.usageCount db user ps ≤ 1) :
    ITL.GetOrCreateSpec db user plan id1 id2 plan_start today fuel ps r := by
  unfold ITL.GetOrCreateSpec
  cases hfind : ITL.findUsage db user ps with
  | some u =>
    obtain ⟨hu_user, hu_ps⟩ := ITL.findUsage_key hfind
    have hcount : ITL.usageCount db user ps = 1 := by
      have := ITL.usageCount_pos_of_find hfind
      omega
    by_cases hplan : u.plan_id = plan
    · have hcall : ITL.get_or_create_user_usage db user plan id1 plan_start today fuel none
          = some (u, db) := by
        simp [ITL.get_or_create_user_usage, hps, hfind, hplan]
      refine ⟨by rw [hcall]; rfl, ?_, ?_⟩
      · intro u1 db1 h1
        rw [hcall] at h1
        obtain ⟨rfl, rfl⟩ : u = u1 ∧ db = db1 := by simpa using h1
        exact ⟨by simp [ITL.get_or_create_user_usage, hps, hfind, hplan],
          hcount, hu_user, hu_ps⟩
      · intro _ _ hnone
        simp [hfind] at hnone
    · have hnew : ITL.usageKey user ps { u with plan_id := plan } = true := by
        simp [ITL.usageKey, hu_user, hu_ps]
      have hcall : ITL.get_or_create_user_usage db user plan id1 plan_start today fuel none
          = some ({ u with plan_id := plan },
              ITL.updateUsage db user ps { u with plan_id := plan }) := by
        simp [ITL.get_or_create_user_usage, hps, hfind, hplan]
      refine ⟨by rw [hcall]; rfl, ?_, ?_⟩
      · intro u1 db1 h1
        rw [hcall] at h1
        obtain ⟨rfl, rfl⟩ :
            ({ u with plan_id := plan } : ITL.UsageRow) = u1 ∧
              ITL.updateUsage db user ps { u with plan_id := plan } = db1 := by
          simpa using h1
        have hfind2 := ITL.findUsage_update_of_found hnew hfind
        refine ⟨by simp [ITL.get_or_create_user_usage, hps, hfind2], ?_, hu_user, hu_ps⟩
        rw [ITL.usageCount_update db user ps _ hnew, hcount]
      · intro _ _ hnone
        simp [hfind] at hnone
  | none =>
    have hfind' : db.find? (ITL.usageKey user ps) = none := hfind
    have hcount0 : ITL.usageCount db user ps = 0 :=
      ITL.findUsage_eq_none_iff_count.mp hfind
    have hkeynew : ITL.usageKey user ps
        ⟨id1, user, plan, ps, (ITL.calculate_period_dates ps).2, 0, 0, 0, 0⟩ = true := by
      simp [ITL.usageKey]
    have hcall : ITL.get_or_create_user_usage db user plan id1 plan_start today fuel none
        = some (⟨id1, user, plan, ps, (ITL.calculate_period_dates ps).2, 0, 0, 0, 0⟩,
            db ++ [⟨id1, user, plan, ps, (ITL.calculate_period_dates ps).2, 0, 0, 0, 0⟩]) := by
      simp [ITL.get_or_create_user_usage, hps, ITL.findUsage, hfind']
    refine ⟨by rw [hcall]; rfl, ?_, ?_⟩
    · intro u1 db1 h1
      rw [hcall] at h1
      obtain ⟨rfl, rfl⟩ :
          (⟨id1, user, plan, ps, (ITL.calculate_period_dates ps).2, 0, 0, 0, 0⟩ :
              ITL.UsageRow) = u1 ∧
            db ++ [⟨id1, user, plan, ps, (ITL.calculate_period_dates ps).2, 0, 0, 0, 0⟩]
              = db1 := by
        simpa using h1
      have hfind2 : ITL.findUsage
          (db ++ [⟨id1, user, plan, ps, (ITL.calculate_period_dates ps).2, 0, 0, 0, 0⟩])
          user ps
          = some ⟨id1, user, plan, ps, (ITL.calculate_period_dates ps).2, 0, 0, 0, 0⟩ := by
        rw [ITL.findUsage, List.find?_append, hfind']
        simp [hkeynew]
      refine ⟨by simp [ITL.get_or_create_user_usage, hps, hfind2], ?_, rfl, rfl⟩
      rw [ITL.usageCount_append, hcount0]
      simp [ITL.usageCount, hkeynew]
    · intro hru hrps _
      have hkr : ITL.usageKey user ps r = true := by
        simp [ITL.usageKey, hru, hrps]
      have hcount1 : ITL.usageCount (db ++ [r]) user ps = 1 := by
        rw [ITL.usageCount_append, hcount0]
        simp [ITL.usageCount, hkr]
      by_cases hp : r.plan_id = plan
      · refine ⟨r, db ++ [r], ?_, rfl, hp, hcount1⟩
        simp [ITL.get_or_create_user_usage, hps, hfind, ITL.findUsage, hkr, hp,
          List.find?_append, hfind']
      · have hknew : ITL.usageKey user ps { r with plan_id := plan } = true := by
          simp [ITL.usageKey, hru, hrps]
        refine ⟨{ r with plan_id := plan },
          ITL.updateUsage (db ++ [r]) user ps { r with plan_id := plan }, ?_, rfl, rfl, ?_⟩
        · simp [ITL.get_or_create_user_usage, hps, hfind, ITL.findUsage, hkr, hp,
            List.find?_append, hfind']
        · rw [ITL.usageCount_update _ _ _ _ hknew, hcount1]

/-- Witness for claim C3: a concrete instantiation (empty table, plan
activated 2024-01-15, called on 2024-01-20, one fuel step, a competitor row
for the same period) discharging both hypotheses. -/
theorem C3_get_or_create_witness :
    (ITL.find_current_period 1 ⟨2024, 1, 15⟩ ⟨2024, 1, 20⟩ = some ⟨2024, 1, 15⟩) ∧
    (ITL.usageCount [] 0 ⟨2024, 1, 15⟩ ≤ 1) ∧
    ITL.GetOrCreateSpec [] 0 5 1 2 ⟨2024, 1, 15⟩ ⟨2024, 1, 20⟩ 1 ⟨2024, 1, 15⟩
      ⟨7, 0, 3, ⟨2024, 1, 15⟩, ⟨2024, 2, 14⟩, 0, 0, 0, 0⟩ :=
  ⟨by decide, by decide,
    C3_get_or_create_idempotent_and_race [] 0 5 1 2 ⟨2024, 1, 15⟩ ⟨2024, 1, 20⟩
      ⟨2024, 1, 15⟩ 1 ⟨7, 0, 3, ⟨2024, 1, 15⟩, ⟨2024, 2, 14⟩, 0, 0, 0, 0⟩
      (by decide) (by decide)⟩

/-- Claim C8: a cached credential whose recorded expiry is 200 seconds in the
future is reported expired, one whose expiry is 400 seconds in the future is
reported valid, and in general a token is treated as expired exactly from
300 seconds before its recorded expiry instant. -/
theorem C8_token_expiry_buffer (now created : Int) (tok : String) :
    (ITL.TokenInfo.is_expired ⟨tok, now + 200, created⟩ now = true) ∧
    (ITL.TokenInfo.is_expired ⟨tok, now + 400, created⟩ now = false) ∧
    (∀ e : Int, ITL.TokenInfo.is_expired ⟨tok, e, created⟩ now = true ↔ e - 300 ≤ now) := by
  refine ⟨?_, ?_, fun e => ?_⟩ <;>
    (simp only [ITL.TokenInfo.is_expired, decide_eq_true_eq, decide_eq_false_iff_not,
      ge_iff_le]
     try omega)

/-- Claim C9: the questions quota check returns not-allowed exactly when the
period's `questions_count` has reached `max_questions_per_month`; at the
boundary `count = max` it is refused with a message, at `count = max - 1`
it is allowed with no message. -/
theorem C9_questions_limit_boundary (qc maxq : Int) :
    ((ITL.check_questions_limit (some (qc, maxq))).1 = false ↔ maxq ≤ qc) ∧
    (ITL.check_questions_limit (some (maxq, maxq)) =
      (false, some ("Question limit exceeded. Maximum: " ++ toString maxq
        ++ " questions per month"))) ∧
    (ITL.check_questions_limit (some (maxq - 1, maxq)) = (true, none)) := by
  refine ⟨?_, ?_, ?_⟩ <;> simp only [ITL.check_questions_limit]
  · split_ifs with h <;> simp <;> omega
  · split_ifs with h
    · rfl
    · exact absurd (le_refl maxq) h
  · split_ifs with h
    · exact absurd h (by omega)
    · rfl

/-- Claim C10: two increments of 50 tokens accumulate to 100 added tokens on
the stored row (so a fresh period ends at exactly 100), and an increment in
which every delta is zero leaves all four stored counters unchanged. -/
theorem C10_increment_accumulates (u : ITL.UsageCounters) :
    ((ITL.increment_user_usage (ITL.increment_user_usage u 0 0 50 0) 0 0 50 0).tokens_used
      = u.tokens_used + 100) ∧
    (ITL.increment_user_usage (ITL.increment_user_usage ⟨0, 0, 0, 0⟩ 0 0 50 0) 0 0 50 0).tokens_used = 100 ∧
    (ITL.increment_user_usage u 0 0 0 0 = u) := by
  refine ⟨?_, ?_, ?_⟩ <;>
    (norm_num [ITL.increment_user_usage]
     try omega)
